import Mathlib

/-!
Verification development for the performance-tracing tool module
(`src/tools/performance.ts`) of the chrome-devtools-mcp repository.

The module is embedded shallowly:
* the mutable tool context (recording flag, append-only list of recorded
  traces, selected page URL) becomes an explicit state record threaded
  through each handler;
* each tool handler becomes a pure function from its parameters, an
  environment describing the outcomes of external calls (navigation,
  tracing driver, trace parsing), and the incoming context, to the
  appended response lines, the outgoing context, and a list of observable
  external effects;
* exceptions of the TypeScript code become an explicit `thrown` field
  (`Option String`) in the handler result;
* times in microseconds (JavaScript numbers) become `Int`.

External services that live outside the given sources
(`src/trace-processing/parse.ts`, the devtools-frontend formatter,
`AgentFocus`, `AICallTree`) are modelled from the spec where a claim
needs their shape; such definitions carry a doc comment saying so.
-/

namespace PerfTools

/-- The parsed-trace model a successful parse produces. `traceBoundsMin` and
`traceBoundsMax` embed `trace.data.Meta.traceBounds.min/.max`; `events`
embeds the event table that `AgentFocus.lookupEvent` consults (keys such
as `r-1234` mapping to the serialized event); `callTrees` embeds the
per-event call tree that `AICallTree.fromEvent` may build. -/
structure ParsedTrace where
  traceBoundsMin : Int
  traceBoundsMax : Int
  events : List (String × String)
  callTrees : List (String × String)
  deriving Repr, DecidableEq

/-- A recorded trace stored in the context by `storeTraceRecording`:
the parsed trace together with its derived insight set (name to
insight text, consulted by `getInsightOutput`) and the high-level
summary text returned by `getTraceSummary`. -/
structure RecordedTrace where
  parsedTrace : ParsedTrace
  insights : List (String × String)
  summary : String
  deriving Repr, DecidableEq

/-- The tool context state: embeds
`context.isRunningPerformanceTrace()` / `setIsRunningPerformanceTrace`,
`context.recordedTraces()` (append-only history, last element is the
active trace) and `context.getSelectedPage().url()`. -/
structure McpContext where
  isRunningPerformanceTrace : Bool
  recordedTraces : List RecordedTrace
  selectedPageUrl : String
  deriving Repr, DecidableEq

/-- Observable external effects a handler performs, in order. -/
inductive Effect where
  | navigate (url : String)
  | tracingStart
  | delayMs (n : Nat)
  | tracingStop
  deriving Repr, DecidableEq

/-- Outcome of the externals used by `stopTracingAndAppendOutput`:
either some awaited step (`page.tracing.stop()` or
`parseRawTraceBuffer`) throws with a message, or parsing completes with
a success (`traceResultIsSuccess` true, carrying the recorded trace) or
a parse failure carrying `result.error`. -/
inductive StopEnv where
  | throws (msg : String)
  | parsedSuccess (rec : RecordedTrace)
  | parsedFailure (error : String)
  deriving Repr, DecidableEq

/-- Outcomes of the externals used by the `startTrace` handler: each
`Option String` is `some msg` when that awaited call throws. `stopEnv`
drives the automatic stop sequence when `autoStop` is set. -/
structure StartEnv where
  gotoBlankThrows : Option String
  tracingStartThrows : Option String
  gotoBackThrows : Option String
  stopEnv : StopEnv
  deriving Repr, DecidableEq

/-- Result of running a handler: the response lines appended (in order),
the outgoing context, the external effects performed, and the exception
that escaped the handler, if any. -/
structure HandlerResult where
  response : List String
  ctx : McpContext
  effects : List Effect
  thrown : Option String
  deriving Repr, DecidableEq

def alreadyRunningLine : String :=
  "Error: a performance trace is already running. Use performance_stop_trace to stop it. Only one trace can be running at any given time."

def recordingAckLine : String :=
  "The performance trace is being recorded. Use performance_stop_trace to stop it."

def stoppedLine : String :=
  "The performance trace has been stopped."

def summaryHeaderLine : String :=
  "Here is a high level summary of the trace and the Insights that were found:"

def parseErrorHeaderLine : String :=
  "There was an unexpected error parsing the trace:"

def stopExceptionHeaderLine : String :=
  "An error occurred generating the response for this trace:"

def noTracesForInsightsLine : String :=
  "No recorded traces found. Record a performance trace so you have Insights to analyze."

def noTraceRecordedLine : String :=
  "Error: no trace recorded"

def noEventWithKeyLine : String :=
  "Error: no event with key found"

/-- The invalid-bounds response line; the source misspells it as
`Erorr: invalid trace bounds`, reproduced here verbatim. -/
def invalidBoundsLine : String :=
  "Erorr: invalid trace bounds"

/-- The `ADDITIONAL_INSTRUCTIONS` constant of the source, a long block of
prompt prose appended after the summary on a successful stop. Only its
presence as one appended line matters to the lifecycle logic, so the
embedding keeps just its opening sentence. -/
def ADDITIONAL_INSTRUCTIONS : String :=
  "You have been provided a summary of a trace: some performance metrics; the most critical network requests; a bottom-up call graph summary; and a brief overview of available insights."

/-- Modelled from the spec: `getTraceSummary` lives in
`src/trace-processing/parse.ts`, which is not among the given sources;
the spec says a successful stop emits a one-shot high-level textual
summary obtained from the external engine, carried here on the record. -/
def getTraceSummary (result : RecordedTrace) : String :=
  result.summary

/-- `stopTracingAndAppendOutput(page, response, context)`: stops the
tracing driver, parses the payload, appends confirmation plus summary on
success or error text on failure, and — in the `finally` block — always
resets the recording flag. The `try`/`catch` becomes the `throws` branch
(the first response append in the source sits after both awaited calls,
so a throw from either yields the same output), and the `finally` is
embedded by resetting the flag on every branch. -/
def stopTracingAndAppendOutput (env : StopEnv) (response : List String)
    (ctx : McpContext) : List String × McpContext :=
  match env with
  | .throws msg =>
      (response ++ [stopExceptionHeaderLine, msg],
       { ctx with isRunningPerformanceTrace := false })
  | .parsedSuccess rec =>
      (response ++ [stoppedLine, summaryHeaderLine, getTraceSummary rec,
         ADDITIONAL_INSTRUCTIONS],
       { ctx with
           recordedTraces := ctx.recordedTraces ++ [rec]
           isRunningPerformanceTrace := false })
  | .parsedFailure error =>
      (response ++ [stoppedLine, parseErrorHeaderLine, error],
       { ctx with isRunningPerformanceTrace := false })

def aboutBlank : String := "about:blank"

/-- The `performance_start_trace` handler. Mirrors the source exactly:
the guard calls `context.isRunningPerformanceTrace()` and rejects with
the already-running line; otherwise the flag is set to true before any
awaited step, then (if `reload`) navigate to `about:blank`, then enable
tracing with the category list, then (if `reload`) navigate back, then
either wait 5000 ms and run the stop sequence (if `autoStop`) or append
the acknowledgement line. There is no `try`/`finally`: an exception at
any awaited step escapes with the flag left set. -/
def startTrace (reload autoStop : Bool) (env : StartEnv)
    (ctx : McpContext) : HandlerResult :=
  if ctx.isRunningPerformanceTrace then
    { response := [alreadyRunningLine], ctx := ctx, effects := [], thrown := none }
  else
    let ctx1 : McpContext := { ctx with isRunningPerformanceTrace := true }
    let pageUrlForTracing := ctx.selectedPageUrl
    if reload && env.gotoBlankThrows.isSome then
      { response := [], ctx := ctx1, effects := [Effect.navigate aboutBlank],
        thrown := env.gotoBlankThrows }
    else
      let eff1 := if reload then [Effect.navigate aboutBlank] else []
      if env.tracingStartThrows.isSome then
        { response := [], ctx := ctx1, effects := eff1,
          thrown := env.tracingStartThrows }
      else
        let eff2 := eff1 ++ [Effect.tracingStart]
        if reload && env.gotoBackThrows.isSome then
          { response := [], ctx := ctx1,
            effects := eff2 ++ [Effect.navigate pageUrlForTracing],
            thrown := env.gotoBackThrows }
        else
          let eff3 := eff2 ++ (if reload then [Effect.navigate pageUrlForTracing] else [])
          if autoStop then
            let stopped := stopTracingAndAppendOutput env.stopEnv [] ctx1
            { response := stopped.1, ctx := stopped.2,
              effects := eff3 ++ [Effect.delayMs 5000, Effect.tracingStop],
              thrown := none }
          else
            { response := [recordingAckLine], ctx := ctx1, effects := eff3,
              thrown := none }

/-- In the source, the guard of the `performance_stop_trace` handler is
`if (!context.isRunningPerformanceTrace) return;` — it tests the
truthiness of the method reference itself instead of calling it. A
method present on the context object is always truthy, so this constant
embeds that condition: it is constantly `true`. -/
def isRunningPerformanceTraceAccessorTruthy : Bool := true

/-- The `performance_stop_trace` handler: the early return fires only if
the (never-false) accessor truthiness is false; otherwise it runs the
stop sequence unconditionally, whatever the actual recording state. -/
def stopTrace (env : StopEnv) (ctx : McpContext) : List String × McpContext :=
  if !isRunningPerformanceTraceAccessorTruthy then
    ([], ctx)
  else
    stopTracingAndAppendOutput env [] ctx

/-- Modelled from the spec: `getInsightOutput` lives in
`src/trace-processing/parse.ts`, which is not among the given sources;
the spec says each recorded trace carries a derived insight set queried
by name, yielding either the insight text or an error message. -/
def getInsightOutput (rec : RecordedTrace) (insightName : String) :
    Except String String :=
  match rec.insights.lookup insightName with
  | some output => .ok output
  | none => .error ("No insight named " ++ insightName ++ " found in the trace.")

/-- The `performance_analyze_insight` handler: takes the last recorded
trace (error line if none), queries the insight output, and appends
either the error or the output. -/
def analyzeInsight (insightName : String) (ctx : McpContext) : List String :=
  match ctx.recordedTraces.getLast? with
  | none => [noTracesForInsightsLine]
  | some lastRecording =>
      match getInsightOutput lastRecording insightName with
      | .error e => [e]
      | .ok output => [output]

/-- Modelled from the spec: `AgentFocus.fromParsedTrace(...).lookupEvent`
comes from the external devtools-frontend library. The spec says the
event resolver maps an opaque key to an event inside the one trace the
focus was built from; embedded as a lookup in that trace's event table. -/
def lookupEvent (trace : ParsedTrace) (key : String) : Option String :=
  trace.events.lookup key

/-- The `performance_get_event_by_key` handler: takes only the last
recorded trace (`recordedTraces().at(-1)`), error line if none; builds
the focus from that single trace and looks the key up there; error line
if the key does not resolve; otherwise the serialized event. -/
def getEventByKey (eventKey : String) (ctx : McpContext) : List String :=
  match ctx.recordedTraces.getLast? with
  | none => [noTraceRecordedLine]
  | some trace =>
      match lookupEvent trace.parsedTrace eventKey with
      | none => [noEventWithKeyLine]
      | some event => ["Event:\n" ++ event]

/-- `createBounds(trace, min, max)`: rejects `min > max` as supplied,
clamps the window to the trace bounds, rejects an empty intersection,
and otherwise returns the clamped window. The source's `min ?? 0` and
`max ?? Number.POSITIVE_INFINITY` defaults are dead for non-nullable
number parameters and so have no counterpart here. -/
def createBounds (trace : ParsedTrace) (min max : Int) :
    Option (Int × Int) :=
  if min > max then
    none
  else
    let clampedMin := Max.max min trace.traceBoundsMin
    let clampedMax := Min.min max trace.traceBoundsMax
    if clampedMin > clampedMax then
      none
    else
      some (clampedMin, clampedMax)

/-- Modelled from the spec: the external
`PerformanceTraceFormatter.formatMainThreadTrackSummary` renders prose
for the resolved bounds; only that some text is produced matters here. -/
def formatMainThreadTrackSummary (trace : ParsedTrace)
    (bounds : Int × Int) : String :=
  "Main thread track summary for bounds [" ++ toString bounds.1 ++ ", "
    ++ toString bounds.2 ++ "] of trace starting at "
    ++ toString trace.traceBoundsMin

/-- Modelled from the spec: the external
`PerformanceTraceFormatter.formatNetworkTrackSummary` renders prose for
the resolved bounds. -/
def formatNetworkTrackSummary (trace : ParsedTrace)
    (bounds : Int × Int) : String :=
  "Network track summary for bounds [" ++ toString bounds.1 ++ ", "
    ++ toString bounds.2 ++ "] of trace starting at "
    ++ toString trace.traceBoundsMin

/-- The `performance_get_main_thread_track_summary` handler: last trace
(error line if none), bounds resolution (error line if invalid), then
the formatted summary. -/
def getMainThreadTrackSummary (min max : Int) (ctx : McpContext) :
    List String :=
  match ctx.recordedTraces.getLast? with
  | none => [noTraceRecordedLine]
  | some trace =>
      match createBounds trace.parsedTrace min max with
      | none => [invalidBoundsLine]
      | some bounds => [formatMainThreadTrackSummary trace.parsedTrace bounds]

/-- The `performance_get_network_track_summary` handler: same shape as
the main-thread summary with the network formatter. -/
def getNetworkTrackSummary (min max : Int) (ctx : McpContext) :
    List String :=
  match ctx.recordedTraces.getLast? with
  | none => [noTraceRecordedLine]
  | some trace =>
      match createBounds trace.parsedTrace min max with
      | none => [invalidBoundsLine]
      | some bounds => [formatNetworkTrackSummary trace.parsedTrace bounds]

/-- Modelled from the spec: `AICallTree.fromEvent(event, parsedTrace)`
comes from the external devtools-frontend library and may return no
tree; embedded as a lookup of the event key in the trace's call-tree
table. -/
def aiCallTreeFromEvent (trace : ParsedTrace) (eventKey : String) :
    Option String :=
  trace.callTrees.lookup eventKey

/-- The `performance_get_detailed_call_tree` handler: last trace (error
line if none), event lookup (error line if the key does not resolve),
call-tree construction, a fixed placeholder when no tree is found. -/
def getDetailedCallTree (eventKey : String) (ctx : McpContext) :
    List String :=
  match ctx.recordedTraces.getLast? with
  | none => [noTraceRecordedLine]
  | some trace =>
      match lookupEvent trace.parsedTrace eventKey with
      | none => [noEventWithKeyLine]
      | some _event =>
          match aiCallTreeFromEvent trace.parsedTrace eventKey with
          | some tree => [tree]
          | none => ["No call tree found"]

/- Concrete fixtures used by witnesses and counterexamples. -/

def exParsedTrace : ParsedTrace :=
  { traceBoundsMin := 1000, traceBoundsMax := 5000,
    events := [("r-1", "LCP candidate event")],
    callTrees := [("r-1", "call tree for r-1")] }

def exRecordedTrace : RecordedTrace :=
  { parsedTrace := exParsedTrace,
    insights := [("DocumentLatency", "document latency details")],
    summary := "example summary" }

def exOldParsedTrace : ParsedTrace :=
  { traceBoundsMin := 0, traceBoundsMax := 900,
    events := [("r-old", "event only in the first trace")],
    callTrees := [] }

def exOldRecordedTrace : RecordedTrace :=
  { parsedTrace := exOldParsedTrace,
    insights := [],
    summary := "older summary" }

def idleCtx : McpContext :=
  { isRunningPerformanceTrace := false, recordedTraces := [],
    selectedPageUrl := "https://example.com" }

def recordingCtx : McpContext :=
  { isRunningPerformanceTrace := true, recordedTraces := [],
    selectedPageUrl := "https://example.com" }

def benignStartEnv : StartEnv :=
  { gotoBlankThrows := none, tracingStartThrows := none,
    gotoBackThrows := none, stopEnv := .parsedSuccess exRecordedTrace }

def throwingStartEnv : StartEnv :=
  { gotoBlankThrows := none, tracingStartThrows := some "net error",
    gotoBackThrows := none, stopEnv := .throws "Target closed" }

/-! Theorems settling the claims. -/

/-- Claim C1: the sentence says a stop invoked while Idle is a no-op with
no output; in the source the guard is
`if (!context.isRunningPerformanceTrace) return;`, testing the truthiness
of the method reference instead of its value, so it never fires and the
handler runs the full stop sequence. At the concrete Idle context (with
the driver throwing, as it does when no tracing is active) the handler
appends two response lines, so a stop while Idle is not a no-op. -/
theorem stopTrace_idle_notNoop :
    idleCtx.isRunningPerformanceTrace = false ∧
    (stopTrace (StopEnv.throws "Target closed") idleCtx).1 =
      [stopExceptionHeaderLine, "Target closed"] ∧
    (stopTrace (StopEnv.throws "Target closed") idleCtx).1 ≠ [] := by
  refine ⟨rfl, rfl, ?_⟩
  simp [stopTrace, stopTracingAndAppendOutput,
    isRunningPerformanceTraceAccessorTruthy]

/-- Claim C2: starting while a trace is already recording appends exactly
the already-running error line, returns the context unchanged (still
Recording, history intact), performs no external effects and throws
nothing; since the context comes back unchanged, every further start
without an intervening stop behaves the same way. -/
theorem startTrace_whileRecording_alreadyRunning
    (reload autoStop : Bool) (env : StartEnv) (ctx : McpContext)
    (h : ctx.isRunningPerformanceTrace = true) :
    startTrace reload autoStop env ctx =
      { response := [alreadyRunningLine], ctx := ctx, effects := [],
        thrown := none } := by
  simp [startTrace, h]

/-- Witness for C2 at a concrete Recording context. -/
theorem startTrace_whileRecording_alreadyRunning_witness :
    recordingCtx.isRunningPerformanceTrace = true ∧
    startTrace true true benignStartEnv recordingCtx =
      { response := [alreadyRunningLine], ctx := recordingCtx,
        effects := [], thrown := none } :=
  ⟨rfl,
   startTrace_whileRecording_alreadyRunning true true benignStartEnv
     recordingCtx rfl⟩

/-- Claim C3: whenever the supplied minimum exceeds the supplied maximum,
bounds resolution returns no bounds, for every trace. -/
theorem createBounds_minGtMax_none (trace : ParsedTrace) (min max : Int)
    (h : min > max) : createBounds trace min max = none := by
  simp [createBounds, h]

/-- Witness for C3 at a concrete inverted window. -/
theorem createBounds_minGtMax_none_witness :
    (7000 : Int) > 6000 ∧ createBounds exParsedTrace 7000 6000 = none :=
  ⟨by decide, createBounds_minGtMax_none exParsedTrace 7000 6000 (by decide)⟩

/-- Claim C4: for a well-ordered supplied window, bounds resolution
returns exactly the window clamped to the trace bounds (minimum raised
to at least the trace minimum, maximum lowered to at most the trace
maximum), except that it returns no bounds when the clamped minimum
exceeds the clamped maximum. The concrete examples of the claim are
checked in the witness. -/
theorem createBounds_clamps (trace : ParsedTrace) (min max : Int)
    (h : min ≤ max) :
    createBounds trace min max =
      (if Max.max min trace.traceBoundsMin > Min.min max trace.traceBoundsMax
       then none
       else some (Max.max min trace.traceBoundsMin,
                  Min.min max trace.traceBoundsMax)) := by
  unfold createBounds
  rw [if_neg (not_lt.mpr h)]

/-- Witness for C4: on the trace with extent 1000 to 5000, the window 0
to 10000 clamps to exactly that extent and the window 6000 to 7000 is
rejected. -/
theorem createBounds_clamps_witness :
    ((0 : Int) ≤ 10000 ∧
      createBounds exParsedTrace 0 10000 = some (1000, 5000)) ∧
    ((6000 : Int) ≤ 7000 ∧
      createBounds exParsedTrace 6000 7000 = none) := by
  refine ⟨⟨by decide, ?_⟩, ⟨by decide, ?_⟩⟩
  · rw [createBounds_clamps exParsedTrace 0 10000 (by decide)]
    decide
  · rw [createBounds_clamps exParsedTrace 6000 7000 (by decide)]
    decide

/-- Claim C5: every query handler invoked with an empty history of
recorded traces returns exactly one error line; the handlers are total
Lean functions, so no fault propagates. -/
theorem queries_emptyHistory_errorLine (insightName eventKey : String)
    (min max : Int) (ctx : McpContext) (h : ctx.recordedTraces = []) :
    analyzeInsight insightName ctx = [noTracesForInsightsLine] ∧
    getEventByKey eventKey ctx = [noTraceRecordedLine] ∧
    getMainThreadTrackSummary min max ctx = [noTraceRecordedLine] ∧
    getNetworkTrackSummary min max ctx = [noTraceRecordedLine] ∧
    getDetailedCallTree eventKey ctx = [noTraceRecordedLine] := by
  simp [analyzeInsight, getEventByKey, getMainThreadTrackSummary,
    getNetworkTrackSummary, getDetailedCallTree, h]

/-- Witness for C5 at the concrete empty-history context. -/
theorem queries_emptyHistory_errorLine_witness :
    idleCtx.recordedTraces = [] ∧
    (analyzeInsight "DocumentLatency" idleCtx = [noTracesForInsightsLine] ∧
     getEventByKey "r-1" idleCtx = [noTraceRecordedLine] ∧
     getMainThreadTrackSummary 0 100 idleCtx = [noTraceRecordedLine] ∧
     getNetworkTrackSummary 0 100 idleCtx = [noTraceRecordedLine] ∧
     getDetailedCallTree "r-1" idleCtx = [noTraceRecordedLine]) :=
  ⟨rfl, queries_emptyHistory_errorLine "DocumentLatency" "r-1" 0 100 idleCtx rfl⟩

/-- Claim C6: event lookup consults only the most recently recorded
trace. For any history of at least two traces whose key resolves in an
older trace but not in the latest one, the handler answers with the
not-found error line: there is no fallback search. -/
theorem getEventByKey_onlyLatestTrace (pre : List RecordedTrace)
    (older latest : RecordedTrace) (key : String) (b : Bool) (url : String)
    (hOld : (lookupEvent older.parsedTrace key).isSome = true)
    (hNew : lookupEvent latest.parsedTrace key = none) :
    getEventByKey key
      { isRunningPerformanceTrace := b,
        recordedTraces := pre ++ [older, latest],
        selectedPageUrl := url } = [noEventWithKeyLine] := by
  have hLast : (pre ++ [older, latest]).getLast? = some latest := by
    rw [show pre ++ [older, latest] = (pre ++ [older]) ++ [latest] by simp]
    exact List.getLast?_concat _
  simp [getEventByKey, hLast, hNew]

/-- Witness for C6: the key valid only in the first recorded trace is
not found once a second trace has been recorded. -/
theorem getEventByKey_onlyLatestTrace_witness :
    (lookupEvent exOldRecordedTrace.parsedTrace "r-old").isSome = true ∧
    lookupEvent exRecordedTrace.parsedTrace "r-old" = none ∧
    getEventByKey "r-old"
      { isRunningPerformanceTrace := false,
        recordedTraces := [] ++ [exOldRecordedTrace, exRecordedTrace],
        selectedPageUrl := "https://example.com" } = [noEventWithKeyLine] :=
  ⟨by decide, by decide,
   getEventByKey_onlyLatestTrace [] exOldRecordedTrace exRecordedTrace
     "r-old" false "https://example.com" (by decide) (by decide)⟩

/-- Claim C7: a stop performed while Recording whose parse step fails
emits the returned error text (after the stopped-confirmation and the
parse-error header), leaves the history unchanged, and resets the state
to Idle. -/
theorem stop_parseFailure_historyUnchanged (error : String)
    (ctx : McpContext) (h : ctx.isRunningPerformanceTrace = true) :
    (stopTracingAndAppendOutput (StopEnv.parsedFailure error) [] ctx).1 =
      [stoppedLine, parseErrorHeaderLine, error] ∧
    (stopTracingAndAppendOutput (StopEnv.parsedFailure error) []
        ctx).2.recordedTraces = ctx.recordedTraces ∧
    (stopTracingAndAppendOutput (StopEnv.parsedFailure error) []
        ctx).2.isRunningPerformanceTrace = false := by
  simp [stopTracingAndAppendOutput]

/-- Witness for C7 at a concrete Recording context and parse error. -/
theorem stop_parseFailure_historyUnchanged_witness :
    recordingCtx.isRunningPerformanceTrace = true ∧
    ((stopTracingAndAppendOutput (StopEnv.parsedFailure "bad payload") []
        recordingCtx).1 =
      [stoppedLine, parseErrorHeaderLine, "bad payload"] ∧
     (stopTracingAndAppendOutput (StopEnv.parsedFailure "bad payload") []
        recordingCtx).2.recordedTraces = recordingCtx.recordedTraces ∧
     (stopTracingAndAppendOutput (StopEnv.parsedFailure "bad payload") []
        recordingCtx).2.isRunningPerformanceTrace = false) :=
  ⟨rfl, stop_parseFailure_historyUnchanged "bad payload" recordingCtx rfl⟩

/-- Claim C8: on every exit path of the stop sequence — successful
parse, parse failure, and an exception thrown while stopping the driver
or retrieving the payload — the recording flag is reset to false, as the
source's `finally` block guarantees. -/
theorem stopSequence_alwaysResetsToIdle (env : StopEnv)
    (response : List String) (ctx : McpContext) :
    (stopTracingAndAppendOutput env response
        ctx).2.isRunningPerformanceTrace = false := by
  cases env <;> simp [stopTracingAndAppendOutput]

/-- Claim C9: from Idle with no external step throwing, a start with
autoStop waits the fixed 5000 millisecond delay, performs the stop
sequence, and returns exactly the stop sequence's output and resulting
context; without autoStop it returns only the acknowledgement line,
leaves the session Recording with an unchanged history, and performs no
stop. -/
theorem startTrace_idle_autoStop_behavior (reload : Bool) (env : StartEnv)
    (ctx : McpContext)
    (hIdle : ctx.isRunningPerformanceTrace = false)
    (hBlank : env.gotoBlankThrows = none)
    (hStart : env.tracingStartThrows = none)
    (hBack : env.gotoBackThrows = none) :
    (startTrace reload true env ctx =
      { response := (stopTracingAndAppendOutput env.stopEnv []
            { ctx with isRunningPerformanceTrace := true }).1,
        ctx := (stopTracingAndAppendOutput env.stopEnv []
            { ctx with isRunningPerformanceTrace := true }).2,
        effects := (if reload then [Effect.navigate aboutBlank] else []) ++
          [Effect.tracingStart] ++
          (if reload then [Effect.navigate ctx.selectedPageUrl] else []) ++
          [Effect.delayMs 5000, Effect.tracingStop],
        thrown := none }) ∧
    (startTrace reload false env ctx =
      { response := [recordingAckLine],
        ctx := { ctx with isRunningPerformanceTrace := true },
        effects := (if reload then [Effect.navigate aboutBlank] else []) ++
          [Effect.tracingStart] ++
          (if reload then [Effect.navigate ctx.selectedPageUrl] else []),
        thrown := none }) := by
  cases reload <;>
    simp [startTrace, hIdle, hBlank, hStart, hBack]

/-- Witness for C9 at the concrete Idle context and throw-free
environment: with autoStop the full stop output comes back, without it
only the acknowledgement line. -/
theorem startTrace_idle_autoStop_behavior_witness :
    (startTrace false true benignStartEnv idleCtx).response =
      [stoppedLine, summaryHeaderLine, "example summary",
        ADDITIONAL_INSTRUCTIONS] ∧
    (startTrace false false benignStartEnv idleCtx).response =
      [recordingAckLine] := by
  have h := startTrace_idle_autoStop_behavior false benignStartEnv idleCtx
    rfl rfl rfl rfl
  refine ⟨?_, ?_⟩
  · rw [h.1]
    rfl
  · rw [h.2]

/-- Claim C10: if a start from Idle lets an exception escape (thrown by
navigation or by enabling capture, all after the Recording flag is set),
no cleanup runs: the resulting context is still Recording, and every
subsequent start against it fails with the already-running error line
and changes nothing, until a stop resets the flag. -/
theorem startTrace_exception_leavesRecording (reload autoStop : Bool)
    (env : StartEnv) (ctx : McpContext) (msg : String)
    (hIdle : ctx.isRunningPerformanceTrace = false)
    (hThrown : (startTrace reload autoStop env ctx).thrown = some msg) :
    (startTrace reload autoStop env ctx).ctx.isRunningPerformanceTrace
      = true ∧
    ∀ (reload2 autoStop2 : Bool) (env2 : StartEnv),
      startTrace reload2 autoStop2 env2
          (startTrace reload autoStop env ctx).ctx =
        { response := [alreadyRunningLine],
          ctx := (startTrace reload autoStop env ctx).ctx,
          effects := [], thrown := none } := by
  have hflag : (startTrace reload autoStop env ctx).ctx.isRunningPerformanceTrace
      = true := by
    cases hR : reload <;> cases hB : env.gotoBlankThrows <;>
      cases hS : env.tracingStartThrows <;> cases hK : env.gotoBackThrows <;>
      cases hA : autoStop <;>
      simp_all [startTrace]
  refine ⟨hflag, fun reload2 autoStop2 env2 => ?_⟩
  revert hflag
  generalize (startTrace reload autoStop env ctx).ctx = C
  intro hflag
  simp [startTrace, hflag]

/-- Witness for C10: a start whose capture-enabling step throws leaves
the flag set, and a later ordinary start is rejected. -/
theorem startTrace_exception_leavesRecording_witness :
    idleCtx.isRunningPerformanceTrace = false ∧
    (startTrace false false throwingStartEnv idleCtx).thrown =
      some "net error" ∧
    (startTrace false false throwingStartEnv
        idleCtx).ctx.isRunningPerformanceTrace = true ∧
    startTrace true true benignStartEnv
        (startTrace false false throwingStartEnv idleCtx).ctx =
      { response := [alreadyRunningLine],
        ctx := (startTrace false false throwingStartEnv idleCtx).ctx,
        effects := [], thrown := none } := by
  have h := startTrace_exception_leavesRecording false false
    throwingStartEnv idleCtx "net error" rfl (by decide)
  exact ⟨rfl, by decide, h.1, h.2 true true benignStartEnv⟩

end PerfTools
